import Mathlib

/-!
Verification of the color-challenge generation core of the ColorChallenge
repository (the `generateColors` function and its constants).

Modelling conventions:
* JavaScript numbers are modelled as rationals (`ℚ`); decimal literals in the
  source (`0.33`, `0.95`, …) become the exact rationals they denote.
* `Math.random()` draws are modelled by an injected stream `rng : ℕ → ℚ`,
  consumed in the exact order the source calls `Math.random()`; validity of the
  stream (each draw in `[0,1)`) is the hypothesis `ValidRng`.
* `Math.floor` is `Int.floor`, JavaScript `%` on nonnegative operands is
  `jsMod`, `Math.min/Math.max` are `min`/`max`, and
  `Number(x.toFixed(2))` is `jsToFixed2` (round to nearest hundredth,
  ties rounded up, which matches `toFixed` on the positive values used here).
* Colors are kept as HSL triples; the source renders them to `hsl(h, s%, l%)`
  strings, which is injective on the triples, so string equality is triple
  equality.
-/

namespace ColorChallenge

/-- An HSL color triple as produced by the generator. -/
structure HSL where
  h : ℚ
  s : ℚ
  l : ℚ
deriving DecidableEq, Repr

/-- One grid cell: `{ color, isTarget }` from the source's `newGrid`. -/
structure Cell where
  color : HSL
  isTarget : Bool
deriving DecidableEq, Repr

/-- The `diffInfo` record set by `generateColors`:
`{ base, target, diff: Number(currentDiff.toFixed(2)) }`. -/
structure DiffInfo where
  base : HSL
  target : HSL
  diff : ℚ
deriving DecidableEq, Repr

/-- Everything one call of `generateColors` produces:
the grid, the target index and the diff info. -/
structure ChallengeRound where
  grid : List Cell
  targetIndex : ℤ
  diffInfo : DiffInfo
deriving DecidableEq, Repr

/-- `const GRID_SIZE = 5`. -/
def GRID_SIZE : ℕ := 5

/-- The `(baseDiff, decay)` pair selected by the two sequential `if`
statements of the source: defaults `(15, 0.95)`, overridden to `(25, 0.97)`
for `EASY` and `(12, 0.92)` for `HARD`.  The difficulty is kept as a string,
as at the JavaScript runtime, so the fall-through behaviour on unrecognized
values is visible. -/
def diffParams (difficulty : String) : ℚ × ℚ :=
  let p0 : ℚ × ℚ := (15, 95/100)
  let p1 : ℚ × ℚ := if difficulty = "EASY" then (25, 97/100) else p0
  let p2 : ℚ × ℚ := if difficulty = "HARD" then (12, 92/100) else p1
  p2

/-- `const currentDiff = Math.max(1, baseDiff * Math.pow(decay, level - 1))`.
`level` is an integer (JavaScript number), so the exponent is an `ℤ`-power. -/
def currentDiff (level : ℤ) (difficulty : String) : ℚ :=
  max 1 ((diffParams difficulty).1 * (diffParams difficulty).2 ^ (level - 1))

/-- Which HSL channel a round shifts. -/
inductive Channel
  | hue
  | sat
  | light
deriving DecidableEq, Repr

/-- The branch selection on `shiftType = Math.random()` in the source:
`shiftType < 0.33` shifts hue, `else if shiftType < 0.66` shifts saturation,
`else` shifts lightness. -/
def channelOf (shiftType : ℚ) : Channel :=
  if shiftType < 33/100 then .hue
  else if shiftType < 66/100 then .sat
  else .light

/-- Channel selection as the spec words it: one draw partitioned into three
equal-width buckets of width exactly 1/3.  Stated from the spec only, to be
compared with `channelOf`, which is the code's selection. -/
def specChannelOf (shiftType : ℚ) : Channel :=
  if shiftType < 1/3 then .hue
  else if shiftType < 2/3 then .sat
  else .light

/-- JavaScript `x % y` for the nonnegative operands used here
(`(h + currentDiff) % 360`). -/
def jsMod (x y : ℚ) : ℚ := x - y * ⌊x / y⌋

/-- `Math.min(100, Math.max(0, x))`. -/
def clamp100 (x : ℚ) : ℚ := min 100 (max 0 x)

/-- `Number(x.toFixed(2))`: round to the nearest hundredth (ties up),
exact for the positive values produced by `currentDiff`. -/
def jsToFixed2 (x : ℚ) : ℚ := (⌊x * 100 + 1/2⌋ : ℚ) / 100

/-- The random base color drawn first:
`h = Math.floor(Math.random()*360)`, `s = Math.floor(Math.random()*40)+40`,
`l = Math.floor(Math.random()*40)+30`.  `rng n` is the value of the
(n+1)-st `Math.random()` call of `generateColors`. -/
def baseHSL (rng : ℕ → ℚ) : HSL :=
  ⟨((⌊rng 0 * 360⌋ : ℤ) : ℚ), ((⌊rng 1 * 40⌋ + 40 : ℤ) : ℚ),
   ((⌊rng 2 * 40⌋ + 30 : ℤ) : ℚ)⟩

/-- The `targetH/targetS/targetL` values after the channel shift, together
with the index of the next unconsumed rng draw: the hue branch calls
`Math.random()` four times before the target-index draw, the saturation and
lightness branches five times (they consume one extra draw for the sign
`Math.random() > 0.5`). -/
def targetHSL (level : ℤ) (difficulty : String) (rng : ℕ → ℚ) : HSL × ℕ :=
  let b := baseHSL rng
  let d := currentDiff level difficulty
  match channelOf (rng 3) with
  | .hue => (⟨jsMod (b.h + d) 360, b.s, b.l⟩, 4)
  | .sat => (⟨b.h, clamp100 (b.s + (if rng 4 > 1/2 then d else -d)), b.l⟩, 5)
  | .light => (⟨b.h, b.s, clamp100 (b.l + (if rng 4 > 1/2 then d else -d))⟩, 5)

/-- The core: the body of `generateColors` from the source.  The grid is
`Array.from({length: GRID_SIZE*GRID_SIZE}, (_, i) => ...)` with the target
color exactly at `newTargetIndex = Math.floor(Math.random() * 25)`. -/
def generateColors (level : ℤ) (difficulty : String) (rng : ℕ → ℚ) :
    ChallengeRound :=
  let baseColor : HSL := baseHSL rng
  let shifted : HSL × ℕ := targetHSL level difficulty rng
  let targetColor : HSL := shifted.1
  let newTargetIndex : ℤ := ⌊rng shifted.2 * ((GRID_SIZE * GRID_SIZE : ℕ) : ℚ)⌋
  let newGrid : List Cell :=
    (List.range (GRID_SIZE * GRID_SIZE)).map fun i =>
      ⟨if (i : ℤ) = newTargetIndex then targetColor else baseColor,
       decide ((i : ℤ) = newTargetIndex)⟩
  ⟨newGrid, newTargetIndex,
   ⟨baseColor, targetColor, jsToFixed2 (currentDiff level difficulty)⟩⟩

/-- Validity of an rng stream: every `Math.random()` value is in `[0,1)`. -/
def ValidRng (rng : ℕ → ℚ) : Prop := ∀ i, 0 ≤ rng i ∧ rng i < 1

/-- A deterministic rng stream whose fourth draw is `0.331`: inside the
first third of `[0,1)` but at or above the code's `0.33` hue cutoff. -/
def thirdBoundaryRng : ℕ → ℚ := fun n => if n = 3 then 331/1000 else 0

/-- A deterministic rng stream realizing the spec's saturation scenario:
the second draw makes `s = 78`, the fourth selects the saturation channel,
the fifth selects the additive sign. -/
def satScenarioRng : ℕ → ℚ := fun n =>
  if n = 1 then 95/100 else if n = 3 then 1/2 else if n = 4 then 3/4 else 0

/-- Structural well-formedness of a produced round: the shape the UI relies
on (25 cells, a target index inside the grid, exactly one target cell
carrying the target color, every other cell carrying the base color). -/
def WellFormedRound (r : ChallengeRound) : Prop :=
  r.grid.length = 25 ∧
  0 ≤ r.targetIndex ∧ r.targetIndex < 25 ∧
  r.grid.countP (fun c => c.isTarget) = 1 ∧
  (∀ c ∈ r.grid, c.isTarget = true → c.color = r.diffInfo.target) ∧
  (∀ c ∈ r.grid, c.isTarget = false → c.color = r.diffInfo.base)

/-! ### Helper lemmas -/

/-- The parameter pair is always one of the three tier presets, so the decay
is in `(0, 1]` and the base delta in `[1, 25]`, whatever string arrives. -/
lemma diffParams_bounds (difficulty : String) :
    0 < (diffParams difficulty).2 ∧ (diffParams difficulty).2 ≤ 1 ∧
    1 ≤ (diffParams difficulty).1 ∧ (diffParams difficulty).1 ≤ 25 := by
  simp only [diffParams]
  split <;> (try split) <;> norm_num

/-- The floor of the decay curve: the applied delta is at least 1. -/
lemma one_le_currentDiff (level : ℤ) (difficulty : String) :
    1 ≤ currentDiff level difficulty := le_max_left _ _

/-- For in-domain levels the applied delta never exceeds the base delta,
hence never exceeds 25. -/
lemma currentDiff_le_of_one_le (level : ℤ) (difficulty : String)
    (hl : 1 ≤ level) : currentDiff level difficulty ≤ 25 := by
  obtain ⟨hd0, hd1, hb1, hb25⟩ := diffParams_bounds difficulty
  have hpow : (diffParams difficulty).2 ^ (level - 1) ≤ 1 :=
    zpow_le_one₀ hd0 hd1 (by omega)
  have : (diffParams difficulty).1 * (diffParams difficulty).2 ^ (level - 1) ≤
      (diffParams difficulty).1 * 1 :=
    mul_le_mul_of_nonneg_left hpow (by linarith)
  have h25 : (diffParams difficulty).1 *
      (diffParams difficulty).2 ^ (level - 1) ≤ 25 := by
    calc (diffParams difficulty).1 * (diffParams difficulty).2 ^ (level - 1)
        ≤ (diffParams difficulty).1 * 1 := this
      _ ≤ 25 := by linarith
  exact max_le (by norm_num) h25

/-- `jsMod x 360` lies in `[0, 360)`. -/
lemma jsMod_360_bounds (x : ℚ) : 0 ≤ jsMod x 360 ∧ jsMod x 360 < 360 := by
  unfold jsMod
  constructor
  · have h := Int.floor_le (x / 360)
    nlinarith
  · have h := Int.lt_floor_add_one (x / 360)
    nlinarith

/-- Floor-based draw bound: if `0 ≤ r < 1` then `⌊r * m⌋ ∈ [0, m)` for a
positive integer scale `m`. -/
lemma floor_draw_bounds (r : ℚ) (m : ℕ) (hm : 0 < m) (h0 : 0 ≤ r)
    (h1 : r < 1) : 0 ≤ ⌊r * (m : ℚ)⌋ ∧ ⌊r * (m : ℚ)⌋ ≤ (m : ℤ) - 1 := by
  have hmq : (0 : ℚ) < (m : ℚ) := by exact_mod_cast hm
  constructor
  · exact Int.floor_nonneg.mpr (by positivity)
  · have hlt : ⌊r * (m : ℚ)⌋ < (m : ℤ) := by
      apply Int.floor_lt.mpr
      push_cast
      nlinarith
    omega

/-- Bounds on the drawn base color for a valid rng stream:
`h ∈ [0, 359]`, `s ∈ [40, 79]`, `l ∈ [30, 69]`. -/
lemma baseHSL_bounds (rng : ℕ → ℚ) (hv : ValidRng rng) :
    0 ≤ (baseHSL rng).h ∧ (baseHSL rng).h ≤ 359 ∧
    40 ≤ (baseHSL rng).s ∧ (baseHSL rng).s ≤ 79 ∧
    30 ≤ (baseHSL rng).l ∧ (baseHSL rng).l ≤ 69 := by
  obtain ⟨h0, h1⟩ := floor_draw_bounds (rng 0) 360 (by norm_num)
    (hv 0).1 (hv 0).2
  obtain ⟨s0, s1⟩ := floor_draw_bounds (rng 1) 40 (by norm_num)
    (hv 1).1 (hv 1).2
  obtain ⟨l0, l1⟩ := floor_draw_bounds (rng 2) 40 (by norm_num)
    (hv 2).1 (hv 2).2
  push_cast at h0 h1 s0 s1 l0 l1
  simp only [baseHSL]
  refine ⟨?_, ?_, ?_, ?_, ?_, ?_⟩
  · exact_mod_cast h0
  · exact_mod_cast (by omega : ⌊rng 0 * 360⌋ ≤ (359 : ℤ))
  · exact_mod_cast (by omega : (40 : ℤ) ≤ ⌊rng 1 * 40⌋ + 40)
  · exact_mod_cast (by omega : ⌊rng 1 * 40⌋ + 40 ≤ (79 : ℤ))
  · exact_mod_cast (by omega : (30 : ℤ) ≤ ⌊rng 2 * 40⌋ + 30)
  · exact_mod_cast (by omega : ⌊rng 2 * 40⌋ + 30 ≤ (69 : ℤ))

/-- Clamping an upward shift keeps the value strictly above the base when
the base is below both bounds. -/
lemma clamp100_add_gt (x d : ℚ) (hx0 : 0 ≤ x) (hx : x < 100) (hd : 0 < d) :
    x < clamp100 (x + d) := by
  unfold clamp100
  rw [max_eq_right (by linarith)]
  exact lt_min hx (by linarith)

/-- Clamping a downward shift keeps the value strictly below the base when
the shifted value stays nonnegative. -/
lemma clamp100_sub_lt (x d : ℚ) (h0 : 0 ≤ x - d)
    (hd : 0 < d) : clamp100 (x - d) < x := by
  unfold clamp100
  rw [max_eq_right h0]
  calc min 100 (x - d) ≤ x - d := min_le_right _ _
    _ < x := by linarith

/-- The clamp always lands in `[0, 100]`. -/
lemma clamp100_mem (x : ℚ) : 0 ≤ clamp100 x ∧ clamp100 x ≤ 100 :=
  ⟨le_min (by norm_num) (le_max_left _ _), min_le_left _ _⟩

/-- Unfolding: the base color recorded in `diffInfo`. -/
lemma generateColors_base (level : ℤ) (difficulty : String) (rng : ℕ → ℚ) :
    (generateColors level difficulty rng).diffInfo.base = baseHSL rng := rfl

/-- Unfolding: the target color recorded in `diffInfo`. -/
lemma generateColors_target (level : ℤ) (difficulty : String) (rng : ℕ → ℚ) :
    (generateColors level difficulty rng).diffInfo.target =
      (targetHSL level difficulty rng).1 := rfl

/-- Unfolding: the recorded difference value. -/
lemma generateColors_diff (level : ℤ) (difficulty : String) (rng : ℕ → ℚ) :
    (generateColors level difficulty rng).diffInfo.diff =
      jsToFixed2 (currentDiff level difficulty) := rfl

/-- The target color never coincides with the base color as long as the
applied delta does not exceed 25, which holds for every in-domain level. -/
lemma targetHSL_ne_base (level : ℤ) (difficulty : String) (rng : ℕ → ℚ)
    (hv : ValidRng rng) (hd25 : currentDiff level difficulty ≤ 25) :
    (targetHSL level difficulty rng).1 ≠ baseHSL rng := by
  have hd1 : 1 ≤ currentDiff level difficulty :=
    one_le_currentDiff level difficulty
  obtain ⟨hh0, hh1, hs0, hs1, hl0, hl1⟩ := baseHSL_bounds rng hv
  cases hch : channelOf (rng 3) with
  | hue =>
      simp only [targetHSL, hch]
      intro heq
      have hmod : jsMod ((baseHSL rng).h + currentDiff level difficulty) 360 =
          (baseHSL rng).h := congrArg HSL.h heq
      unfold jsMod at hmod
      set k : ℤ :=
        ⌊((baseHSL rng).h + currentDiff level difficulty) / 360⌋ with hk
      have hdk : currentDiff level difficulty = 360 * (k : ℚ) := by linarith
      rcases le_or_lt k 0 with hk0 | hk1
      · have : (k : ℚ) ≤ 0 := by exact_mod_cast hk0
        nlinarith
      · have : (1 : ℚ) ≤ (k : ℚ) := by exact_mod_cast hk1
        nlinarith
  | sat =>
      simp only [targetHSL, hch]
      intro heq
      have hs : clamp100 ((baseHSL rng).s +
          (if rng 4 > 1/2 then currentDiff level difficulty
           else -currentDiff level difficulty)) = (baseHSL rng).s :=
        congrArg HSL.s heq
      split at hs
      · have := clamp100_add_gt (baseHSL rng).s (currentDiff level difficulty)
          (by linarith) (by linarith) (by linarith)
        rw [hs] at this
        exact lt_irrefl _ this
      · rw [← sub_eq_add_neg] at hs
        have := clamp100_sub_lt (baseHSL rng).s (currentDiff level difficulty)
          (by linarith) (by linarith)
        rw [hs] at this
        exact lt_irrefl _ this
  | light =>
      simp only [targetHSL, hch]
      intro heq
      have hsl : clamp100 ((baseHSL rng).l +
          (if rng 4 > 1/2 then currentDiff level difficulty
           else -currentDiff level difficulty)) = (baseHSL rng).l :=
        congrArg HSL.l heq
      split at hsl
      · have := clamp100_add_gt (baseHSL rng).l (currentDiff level difficulty)
          (by linarith) (by linarith) (by linarith)
        rw [hsl] at this
        exact lt_irrefl _ this
      · rw [← sub_eq_add_neg] at hsl
        have := clamp100_sub_lt (baseHSL rng).l (currentDiff level difficulty)
          (by linarith) (by linarith)
        rw [hsl] at this
        exact lt_irrefl _ this

/-- Unfolding: the target index. -/
lemma generateColors_targetIndex (level : ℤ) (difficulty : String)
    (rng : ℕ → ℚ) :
    (generateColors level difficulty rng).targetIndex =
      ⌊rng (targetHSL level difficulty rng).2 *
        ((GRID_SIZE * GRID_SIZE : ℕ) : ℚ)⌋ := rfl

/-- Unfolding: the grid. -/
lemma generateColors_grid (level : ℤ) (difficulty : String) (rng : ℕ → ℚ) :
    (generateColors level difficulty rng).grid =
      (List.range (GRID_SIZE * GRID_SIZE)).map (fun i =>
        ⟨if (i : ℤ) = (generateColors level difficulty rng).targetIndex
          then (targetHSL level difficulty rng).1 else baseHSL rng,
         decide ((i : ℤ) =
           (generateColors level difficulty rng).targetIndex)⟩) := rfl

/-- In `List.range n` exactly one element casts to a fixed integer in
`[0, n)`. -/
lemma countP_range_target (n : ℕ) (t : ℤ) (h0 : 0 ≤ t) (h1 : t < (n : ℤ)) :
    (List.range n).countP (fun i : ℕ => decide ((i : ℤ) = t)) = 1 := by
  have hmem : t.toNat ∈ List.range n := List.mem_range.mpr (by omega)
  have hcong : (List.range n).countP (fun i : ℕ => decide ((i : ℤ) = t)) =
      (List.range n).countP (fun i => i == t.toNat) := by
    refine List.countP_congr (fun x _ => ?_)
    constructor
    · intro hx
      have hxt : (x : ℤ) = t := of_decide_eq_true hx
      have : x = t.toNat := by omega
      simp [this]
    · intro hx
      have hxt : x = t.toNat := by simpa using hx
      exact decide_eq_true (by omega)
  rw [hcong]
  have hcount : (List.range n).countP (fun i => i == t.toNat) =
      (List.range n).count t.toNat := rfl
  rw [hcount]
  exact List.count_eq_one_of_mem (List.nodup_range n) hmem

/-- Every round a valid rng stream produces is structurally well-formed,
for every level and every difficulty string: `generateColors` performs no
input validation, so this needs no `1 ≤ level` hypothesis. -/
lemma generateColors_wellFormed (level : ℤ) (difficulty : String)
    (rng : ℕ → ℚ) (hv : ValidRng rng) :
    WellFormedRound (generateColors level difficulty rng) := by
  set k : ℕ := (targetHSL level difficulty rng).2 with hk
  obtain ⟨ht0, ht1⟩ := floor_draw_bounds (rng k) (GRID_SIZE * GRID_SIZE)
    (by norm_num [GRID_SIZE]) (hv k).1 (hv k).2
  have htIdx : (generateColors level difficulty rng).targetIndex =
      ⌊rng k * ((GRID_SIZE * GRID_SIZE : ℕ) : ℚ)⌋ :=
    generateColors_targetIndex level difficulty rng
  refine ⟨?_, ?_, ?_, ?_, ?_, ?_⟩
  · rw [generateColors_grid]
    simp [GRID_SIZE]
  · rw [htIdx]; exact ht0
  · rw [htIdx]
    have : ((GRID_SIZE * GRID_SIZE : ℕ) : ℤ) = 25 := by norm_num [GRID_SIZE]
    omega
  · rw [generateColors_grid]
    rw [List.countP_map]
    have : ((fun c : Cell => c.isTarget) ∘ (fun i : ℕ =>
        (⟨if (i : ℤ) = (generateColors level difficulty rng).targetIndex
           then (targetHSL level difficulty rng).1 else baseHSL rng,
          decide ((i : ℤ) =
            (generateColors level difficulty rng).targetIndex)⟩ : Cell))) =
        fun i : ℕ => decide ((i : ℤ) =
          (generateColors level difficulty rng).targetIndex) := rfl
    rw [this]
    apply countP_range_target
    · rw [htIdx]; exact ht0
    · rw [htIdx]
      norm_num [GRID_SIZE] at ht1 ⊢
      omega
  · intro c hc htg
    rw [generateColors_grid] at hc
    obtain ⟨i, _, rfl⟩ := List.mem_map.mp hc
    by_cases hit : (i : ℤ) = (generateColors level difficulty rng).targetIndex
    · simp [hit, generateColors_target]
    · simp [hit] at htg
  · intro c hc htg
    rw [generateColors_grid] at hc
    obtain ⟨i, _, rfl⟩ := List.mem_map.mp hc
    by_cases hit : (i : ℤ) = (generateColors level difficulty rng).targetIndex
    · simp [hit] at htg
    · simp [hit, generateColors_base]

/-! ### Claim theorems -/

/-- C1: for every level ≥ 1, every tier string and every valid randomness
stream, the generated round has `baseColor ≠ targetColor`, and the output is
a deterministic function of `(level, tier, rng stream)`. -/
theorem generate_base_ne_target_and_deterministic
    (level : ℤ) (difficulty : String) (rng : ℕ → ℚ)
    (hl : 1 ≤ level) (hv : ValidRng rng) :
    (generateColors level difficulty rng).diffInfo.base ≠
      (generateColors level difficulty rng).diffInfo.target ∧
    (∀ rng' : ℕ → ℚ, (∀ i, rng i = rng' i) →
      generateColors level difficulty rng =
        generateColors level difficulty rng') := by
  constructor
  · rw [generateColors_base, generateColors_target]
    exact (targetHSL_ne_base level difficulty rng hv
      (currentDiff_le_of_one_le level difficulty hl)).symm
  · intro rng' h
    rw [funext h]

/-- Witness for C1 at `level = 1`, tier `NORMAL`, the all-zero rng stream. -/
theorem generate_base_ne_target_and_deterministic_witness :
    (1 : ℤ) ≤ 1 ∧ ValidRng (fun _ => 0) ∧
    (generateColors 1 "NORMAL" (fun _ => 0)).diffInfo.base ≠
      (generateColors 1 "NORMAL" (fun _ => 0)).diffInfo.target :=
  ⟨le_refl 1, fun _ => by norm_num,
   (generate_base_ne_target_and_deterministic 1 "NORMAL" (fun _ => 0)
     (le_refl 1) (fun _ => by norm_num)).1⟩

/-- C2: the applied delta follows
`max(1, baseDelta(tier) * decay(tier)^(level-1))` with constants 25/0.97
(EASY), 15/0.95 (NORMAL), 12/0.92 (HARD); at level 1 it equals the base
delta exactly. -/
theorem appliedDelta_formula (level : ℤ) (hl : 1 ≤ level) :
    currentDiff level "EASY" = max 1 (25 * (97/100 : ℚ) ^ (level - 1)) ∧
    currentDiff level "NORMAL" = max 1 (15 * (95/100 : ℚ) ^ (level - 1)) ∧
    currentDiff level "HARD" = max 1 (12 * (92/100 : ℚ) ^ (level - 1)) ∧
    currentDiff 1 "EASY" = 25 ∧ currentDiff 1 "NORMAL" = 15 ∧
    currentDiff 1 "HARD" = 12 := by
  refine ⟨?_, ?_, ?_, ?_, ?_, ?_⟩ <;>
    simp +decide only [currentDiff, diffParams, if_false] <;> norm_num

/-- Witness for C2 at `level = 1`. -/
theorem appliedDelta_formula_witness :
    (1 : ℤ) ≤ 1 ∧ currentDiff 1 "EASY" = 25 ∧ currentDiff 1 "NORMAL" = 15 ∧
    currentDiff 1 "HARD" = 12 :=
  ⟨le_refl 1, (appliedDelta_formula 1 (le_refl 1)).2.2.2.1,
   (appliedDelta_formula 1 (le_refl 1)).2.2.2.2.1,
   (appliedDelta_formula 1 (le_refl 1)).2.2.2.2.2⟩

/-- C3: for a fixed tier the applied delta is monotonically non-increasing
in the level, and for every level ≥ 1 (no upper bound) it is at least 1 and
in particular nonnegative; it is a well-defined rational for every level,
so no NaN can occur. -/
theorem appliedDelta_monotone_and_floored (difficulty : String)
    (level level' : ℤ) (hl : 1 ≤ level) (hll : level ≤ level') :
    currentDiff level' difficulty ≤ currentDiff level difficulty ∧
    1 ≤ currentDiff level difficulty ∧
    0 ≤ currentDiff level' difficulty := by
  obtain ⟨hd0, hd1, hb1, _⟩ := diffParams_bounds difficulty
  refine ⟨?_, one_le_currentDiff level difficulty,
    le_trans (by norm_num) (one_le_currentDiff level' difficulty)⟩
  have hpow : (diffParams difficulty).2 ^ (level' - 1) ≤
      (diffParams difficulty).2 ^ (level - 1) :=
    zpow_le_zpow_right_of_le_one₀ hd0 hd1 (by omega)
  exact max_le_max (le_refl 1)
    (mul_le_mul_of_nonneg_left hpow (by linarith))

/-- Witness for C3: tier HARD, levels 1 and 50, with the level-1 value
evaluated. -/
theorem appliedDelta_monotone_and_floored_witness :
    (1 : ℤ) ≤ 1 ∧ (1 : ℤ) ≤ 50 ∧
    (currentDiff 50 "HARD" ≤ currentDiff 1 "HARD" ∧
     1 ≤ currentDiff 1 "HARD" ∧ 0 ≤ currentDiff 50 "HARD") ∧
    currentDiff 1 "HARD" = 12 :=
  ⟨le_refl 1, by norm_num,
   appliedDelta_monotone_and_floored "HARD" 1 50 (le_refl 1) (by norm_num),
   by simp +decide only [currentDiff, diffParams, if_false]; norm_num⟩

/-- C4: every generated round (gridSize 5) has its target index in
`[0, 25)`, a 25-cell grid with exactly one `isTarget` cell, that cell
colored with the target color and all others with the base color. -/
theorem grid_exactly_one_target (level : ℤ) (difficulty : String)
    (rng : ℕ → ℚ) (hv : ValidRng rng) :
    WellFormedRound (generateColors level difficulty rng) :=
  generateColors_wellFormed level difficulty rng hv

/-- Witness for C4 at concrete inputs. -/
theorem grid_exactly_one_target_witness :
    ValidRng (fun _ => 0) ∧
    WellFormedRound (generateColors 1 "NORMAL" (fun _ => 0)) :=
  ⟨fun _ => by norm_num,
   grid_exactly_one_target 1 "NORMAL" (fun _ => 0) (fun _ => by norm_num)⟩

/-- Bounds on the target color for a valid rng stream: hue in `[0, 360)`,
saturation and lightness in `[0, 100]`. -/
lemma targetHSL_bounds (level : ℤ) (difficulty : String) (rng : ℕ → ℚ)
    (hv : ValidRng rng) :
    0 ≤ (targetHSL level difficulty rng).1.h ∧
    (targetHSL level difficulty rng).1.h < 360 ∧
    0 ≤ (targetHSL level difficulty rng).1.s ∧
    (targetHSL level difficulty rng).1.s ≤ 100 ∧
    0 ≤ (targetHSL level difficulty rng).1.l ∧
    (targetHSL level difficulty rng).1.l ≤ 100 := by
  obtain ⟨hh0, hh1, hs0, hs1, hl0, hl1⟩ := baseHSL_bounds rng hv
  cases hch : channelOf (rng 3) with
  | hue =>
      simp only [targetHSL, hch]
      obtain ⟨hm0, hm1⟩ := jsMod_360_bounds
        ((baseHSL rng).h + currentDiff level difficulty)
      exact ⟨hm0, hm1, by linarith, by linarith, by linarith, by linarith⟩
  | sat =>
      simp only [targetHSL, hch]
      exact ⟨hh0, by linarith, (clamp100_mem _).1, (clamp100_mem _).2,
        by linarith, by linarith⟩
  | light =>
      simp only [targetHSL, hch]
      exact ⟨hh0, by linarith, by linarith, by linarith,
        (clamp100_mem _).1, (clamp100_mem _).2⟩

/-- C7: for every valid rng stream the base color has hue in `[0, 360)`,
saturation in `[40, 80]` and lightness in `[30, 70]`, and both colors of
the round keep hue in `[0, 360)` and saturation/lightness in `[0, 100]`. -/
theorem round_color_ranges (level : ℤ) (difficulty : String) (rng : ℕ → ℚ)
    (hv : ValidRng rng) :
    (0 ≤ (generateColors level difficulty rng).diffInfo.base.h ∧
     (generateColors level difficulty rng).diffInfo.base.h < 360) ∧
    (40 ≤ (generateColors level difficulty rng).diffInfo.base.s ∧
     (generateColors level difficulty rng).diffInfo.base.s ≤ 80) ∧
    (30 ≤ (generateColors level difficulty rng).diffInfo.base.l ∧
     (generateColors level difficulty rng).diffInfo.base.l ≤ 70) ∧
    (0 ≤ (generateColors level difficulty rng).diffInfo.target.h ∧
     (generateColors level difficulty rng).diffInfo.target.h < 360) ∧
    (0 ≤ (generateColors level difficulty rng).diffInfo.target.s ∧
     (generateColors level difficulty rng).diffInfo.target.s ≤ 100) ∧
    (0 ≤ (generateColors level difficulty rng).diffInfo.target.l ∧
     (generateColors level difficulty rng).diffInfo.target.l ≤ 100) := by
  obtain ⟨hh0, hh1, hs0, hs1, hl0, hl1⟩ := baseHSL_bounds rng hv
  obtain ⟨th0, th1, ts0, ts1, tl0, tl1⟩ :=
    targetHSL_bounds level difficulty rng hv
  rw [generateColors_base, generateColors_target]
  exact ⟨⟨hh0, by linarith⟩, ⟨hs0, by linarith⟩, ⟨hl0, by linarith⟩,
    ⟨th0, th1⟩, ⟨ts0, ts1⟩, ⟨tl0, tl1⟩⟩

/-- Witness for C7 at concrete inputs. -/
theorem round_color_ranges_witness :
    ValidRng (fun _ => 0) ∧
    (40 ≤ (generateColors 1 "NORMAL" (fun _ => 0)).diffInfo.base.s ∧
     (generateColors 1 "NORMAL" (fun _ => 0)).diffInfo.base.s ≤ 80) :=
  ⟨fun _ => by norm_num,
   (round_color_ranges 1 "NORMAL" (fun _ => 0) (fun _ => by norm_num)).2.1⟩

/-- C10: the target color differs from the base color in at most one HSL
channel: the two channels not selected by the shift draw are identical in
both colors. -/
theorem target_shifts_at_most_one_channel (level : ℤ) (difficulty : String)
    (rng : ℕ → ℚ) :
    ((generateColors level difficulty rng).diffInfo.target.h =
       (generateColors level difficulty rng).diffInfo.base.h ∧
     (generateColors level difficulty rng).diffInfo.target.s =
       (generateColors level difficulty rng).diffInfo.base.s) ∨
    ((generateColors level difficulty rng).diffInfo.target.h =
       (generateColors level difficulty rng).diffInfo.base.h ∧
     (generateColors level difficulty rng).diffInfo.target.l =
       (generateColors level difficulty rng).diffInfo.base.l) ∨
    ((generateColors level difficulty rng).diffInfo.target.s =
       (generateColors level difficulty rng).diffInfo.base.s ∧
     (generateColors level difficulty rng).diffInfo.target.l =
       (generateColors level difficulty rng).diffInfo.base.l) := by
  rw [generateColors_base, generateColors_target]
  cases hch : channelOf (rng 3) with
  | hue =>
      right; right
      simp only [targetHSL, hch]
      exact ⟨trivial, trivial⟩
  | sat =>
      right; left
      simp only [targetHSL, hch]
      exact ⟨trivial, trivial⟩
  | light =>
      left
      simp only [targetHSL, hch]
      exact ⟨trivial, trivial⟩

/-- C5 counterexample: the channel buckets are not equal thirds.  The draw
`0.331` lies in the first third of `[0,1)` — an equal-width partition would
shift hue — but the code shifts saturation: the generated round keeps the
base hue and changes the saturation. -/
theorem channel_buckets_not_equal_thirds :
    (331/1000 : ℚ) < 1/3 ∧
    specChannelOf (331/1000) = Channel.hue ∧
    channelOf (331/1000) = Channel.sat ∧
    (generateColors 1 "NORMAL" thirdBoundaryRng).diffInfo.target.h =
      (generateColors 1 "NORMAL" thirdBoundaryRng).diffInfo.base.h ∧
    (generateColors 1 "NORMAL" thirdBoundaryRng).diffInfo.target.s ≠
      (generateColors 1 "NORMAL" thirdBoundaryRng).diffInfo.base.s := by
  have hch : channelOf (thirdBoundaryRng 3) = Channel.sat := by
    unfold thirdBoundaryRng channelOf
    norm_num
  refine ⟨by norm_num, ?_, ?_, ?_, ?_⟩
  · unfold specChannelOf
    norm_num
  · unfold channelOf
    norm_num
  · rw [generateColors_base, generateColors_target]
    simp only [targetHSL, hch]
  · rw [generateColors_base, generateColors_target]
    simp only [targetHSL, hch]
    have hbs : (baseHSL thirdBoundaryRng).s = 40 := by
      unfold baseHSL thirdBoundaryRng
      norm_num
    have hd : currentDiff 1 "NORMAL" = 15 := by
      simp +decide only [currentDiff, diffParams, if_false]
      norm_num
    have hsign : ¬ (thirdBoundaryRng 4 > 1/2) := by
      unfold thirdBoundaryRng
      norm_num
    rw [hbs, hd, if_neg hsign]
    unfold clamp100
    norm_num

/-- C5 (amended): the shift channel is chosen from a single draw
partitioned into the buckets `[0, 0.33)` for hue, `[0.33, 0.66)` for
saturation and `[0.66, 1)` for lightness — widths 0.33, 0.33 and 0.34, not
three equal thirds. -/
theorem channel_bucket_widths (x : ℚ) :
    (channelOf x = Channel.hue ↔ x < 33/100) ∧
    (channelOf x = Channel.sat ↔ 33/100 ≤ x ∧ x < 66/100) ∧
    (channelOf x = Channel.light ↔ 66/100 ≤ x) := by
  unfold channelOf
  split_ifs with h1 h2
  · exact ⟨⟨fun _ => h1, fun _ => rfl⟩,
      ⟨fun h => h.elim, fun h => (not_lt.mpr h.1) h1⟩,
      ⟨fun h => h.elim, fun h => absurd h1 (by linarith)⟩⟩
  · exact ⟨⟨fun h => h.elim, fun h => h1 h⟩,
      ⟨fun _ => ⟨not_lt.mp h1, h2⟩, fun _ => rfl⟩,
      ⟨fun h => h.elim, fun h => (not_lt.mpr h) h2⟩⟩
  · exact ⟨⟨fun h => h.elim, fun h => h1 h⟩,
      ⟨fun h => h.elim, fun h => h2 h.2⟩,
      ⟨fun _ => not_lt.mp h2, fun _ => rfl⟩⟩

/-- C6: a hue shift is always additive modulo 360, a saturation or
lightness shift adds or subtracts the applied delta according to the sign
draw and clamps to `[0, 100]`; concretely, a saturation shift at `s = 78`
with delta 25 and the additive sign yields exactly 100. -/
theorem shift_policy (level : ℤ) (difficulty : String) (rng : ℕ → ℚ) :
    (channelOf (rng 3) = Channel.hue →
      (targetHSL level difficulty rng).1 =
        ⟨jsMod ((baseHSL rng).h + currentDiff level difficulty) 360,
         (baseHSL rng).s, (baseHSL rng).l⟩) ∧
    (channelOf (rng 3) = Channel.sat →
      (targetHSL level difficulty rng).1 =
        ⟨(baseHSL rng).h,
         clamp100 ((baseHSL rng).s +
           (if rng 4 > 1/2 then currentDiff level difficulty
            else -currentDiff level difficulty)),
         (baseHSL rng).l⟩) ∧
    (channelOf (rng 3) = Channel.light →
      (targetHSL level difficulty rng).1 =
        ⟨(baseHSL rng).h, (baseHSL rng).s,
         clamp100 ((baseHSL rng).l +
           (if rng 4 > 1/2 then currentDiff level difficulty
            else -currentDiff level difficulty))⟩) ∧
    (generateColors 1 "EASY" satScenarioRng).diffInfo.base.s = 78 ∧
    currentDiff 1 "EASY" = 25 ∧
    (generateColors 1 "EASY" satScenarioRng).diffInfo.target.s = 100 := by
  have hd25 : currentDiff 1 "EASY" = 25 := by
    simp +decide only [currentDiff, diffParams, if_false]
    norm_num
  have hbs : (baseHSL satScenarioRng).s = 78 := by
    unfold baseHSL satScenarioRng
    norm_num
  have hch : channelOf (satScenarioRng 3) = Channel.sat := by
    unfold satScenarioRng channelOf
    norm_num
  have hsign : satScenarioRng 4 > 1/2 := by
    unfold satScenarioRng
    norm_num
  refine ⟨fun h => by simp only [targetHSL, h],
    fun h => by simp only [targetHSL, h],
    fun h => by simp only [targetHSL, h], ?_, hd25, ?_⟩
  · rw [generateColors_base, hbs]
  · rw [generateColors_target]
    simp only [targetHSL, hch]
    rw [hbs, hd25, if_pos hsign]
    unfold clamp100
    norm_num

/-- Witness for C6: the all-zero stream selects the hue channel, and the
hue form given by the theorem holds there. -/
theorem shift_policy_witness :
    channelOf ((fun _ : ℕ => (0 : ℚ)) 3) = Channel.hue ∧
    (targetHSL 1 "NORMAL" (fun _ : ℕ => (0 : ℚ))).1 =
      ⟨jsMod ((baseHSL (fun _ : ℕ => (0 : ℚ))).h + currentDiff 1 "NORMAL")
         360,
       (baseHSL (fun _ : ℕ => (0 : ℚ))).s,
       (baseHSL (fun _ : ℕ => (0 : ℚ))).l⟩ :=
  ⟨by unfold channelOf; norm_num,
   (shift_policy 1 "NORMAL" (fun _ : ℕ => (0 : ℚ))).1
     (by unfold channelOf; norm_num)⟩

/-- C8 (amended): the `diff` value recorded in the round's info equals the
applied delta rounded to two decimal places (`Number(x.toFixed(2))`), which
is within 1/200 of the actual shift magnitude but not always equal to it. -/
theorem recorded_diff_is_rounded (level : ℤ) (difficulty : String)
    (rng : ℕ → ℚ) :
    (generateColors level difficulty rng).diffInfo.diff =
      jsToFixed2 (currentDiff level difficulty) ∧
    |(generateColors level difficulty rng).diffInfo.diff -
      currentDiff level difficulty| ≤ 1/200 := by
  refine ⟨generateColors_diff level difficulty rng, ?_⟩
  rw [generateColors_diff]
  unfold jsToFixed2
  have h1 := Int.floor_le (currentDiff level difficulty * 100 + 1/2)
  have h2 := Int.lt_floor_add_one (currentDiff level difficulty * 100 + 1/2)
  rw [abs_le]
  constructor <;> linarith

/-- C8 counterexample: at level 3, tier NORMAL, the actual applied delta is
`15 * 0.95² = 13.5375`, but the recorded `diff` is the rounded `13.54`. -/
theorem recorded_diff_ne_applied :
    currentDiff 3 "NORMAL" = 1083/80 ∧
    (generateColors 3 "NORMAL" (fun _ : ℕ => (0 : ℚ))).diffInfo.diff =
      677/50 ∧
    (generateColors 3 "NORMAL" (fun _ : ℕ => (0 : ℚ))).diffInfo.diff ≠
      currentDiff 3 "NORMAL" := by
  have hc : currentDiff 3 "NORMAL" = 1083/80 := by
    simp +decide only [currentDiff, diffParams, if_false]
    norm_num
  have hr : (generateColors 3 "NORMAL" (fun _ : ℕ => (0 : ℚ))).diffInfo.diff
      = 677/50 := by
    rw [generateColors_diff, hc]
    unfold jsToFixed2
    norm_num
  exact ⟨hc, hr, by rw [hr, hc]; norm_num⟩

/-- C9 counterexample: `generateColors` performs no precondition check.
At the out-of-domain input `level = 0` it silently returns a structurally
well-formed round with distinct base and target colors, and an unrecognized
tier string is silently treated with the NORMAL constants, also producing a
well-formed round — no `InvalidArgument`-class failure is signaled. -/
theorem generate_no_error_on_bad_input :
    WellFormedRound (generateColors 0 "NORMAL" (fun _ : ℕ => (0 : ℚ))) ∧
    (generateColors 0 "NORMAL" (fun _ : ℕ => (0 : ℚ))).diffInfo.base ≠
      (generateColors 0 "NORMAL" (fun _ : ℕ => (0 : ℚ))).diffInfo.target ∧
    diffParams "GARBAGE" = (15, 19/20) ∧
    WellFormedRound (generateColors 1 "GARBAGE" (fun _ : ℕ => (0 : ℚ))) := by
  refine ⟨generateColors_wellFormed _ _ _ (fun _ => by norm_num), ?_, ?_,
    generateColors_wellFormed _ _ _ (fun _ => by norm_num)⟩
  · rw [generateColors_base, generateColors_target]
    refine (targetHSL_ne_base 0 "NORMAL" (fun _ : ℕ => (0 : ℚ))
      (fun _ => by norm_num) ?_).symm
    simp +decide only [currentDiff, diffParams, if_false]
    rw [max_le_iff]
    norm_num
  · simp +decide only [diffParams, if_false]
    norm_num

/-- C9 (amended): out-of-domain inputs are not rejected: for every level
(including levels below 1), every tier string (including unrecognized ones)
and every valid rng stream, `generateColors` silently returns a
structurally well-formed round, with an unrecognized tier falling back to
the NORMAL constants. -/
theorem generate_total_no_validation (level : ℤ) (difficulty : String)
    (rng : ℕ → ℚ) (hv : ValidRng rng) :
    WellFormedRound (generateColors level difficulty rng) ∧
    (difficulty ≠ "EASY" → difficulty ≠ "HARD" →
      diffParams difficulty = (15, 19/20)) := by
  refine ⟨generateColors_wellFormed level difficulty rng hv,
    fun hE hH => ?_⟩
  simp only [diffParams, if_neg hE, if_neg hH]
  norm_num

/-- Witness for C9 at the out-of-domain level 0 and an unrecognized tier. -/
theorem generate_total_no_validation_witness :
    ValidRng (fun _ : ℕ => (0 : ℚ)) ∧
    WellFormedRound (generateColors 0 "SILLY" (fun _ : ℕ => (0 : ℚ))) ∧
    diffParams "SILLY" = (15, 19/20) :=
  ⟨fun _ => by norm_num,
   (generate_total_no_validation 0 "SILLY" (fun _ : ℕ => (0 : ℚ))
     (fun _ => by norm_num)).1,
   (generate_total_no_validation 0 "SILLY" (fun _ : ℕ => (0 : ℚ))
     (fun _ => by norm_num)).2 (by decide) (by decide)⟩

end ColorChallenge
